import Mathlib

/-
Shallow embedding of the "think" repository (a Gemini-backed detective
mystery game).  The data model follows src/types.ts; the service layer
follows src/services/geminiService.ts; the session step follows
src/App.tsx (handlePlayerInput) and src/components/InputArea.tsx.

External boundaries (the Gemini network call and JSON.parse of its text)
are modelled as oracle inputs: each service function takes an outcome
value describing what the call and the parse produced, and the embedding
encodes exactly what the TypeScript code does with that outcome.  A
function that the source lets exceptions escape from is embedded with an
Except result; a function whose source catches every exception is
embedded as a total function.

TypeScript casts such as "JSON.parse(text) as MysteryData" perform no
runtime validation, so the raw payload types below let fields be absent
(Option) exactly where the untyped runtime value could lack them and the
code would notice (by throwing on .map of a missing array, or by passing
the absent value through).
-/

namespace Think

/-- GamePhase from src/types.ts. -/
inductive GamePhase
| IDLE
| LOADING
| PLAYING
| SOLVING
| ENDED
| FAILED
deriving DecidableEq

/-- NPC from src/types.ts.  Note: the interface has no status field. -/
structure NPC where
  id : String
  name : String
  role : String
  description : String
  personality : String
  avatarUrl : Option String := none
  visualSummary : Option String := none
deriving DecidableEq

/-- Clue as held in a returned MysteryData (isLocked present, a Bool). -/
structure Clue where
  id : String
  title : String
  description : String
  isLocked : Bool
deriving DecidableEq

/-- Ending from src/types.ts; type is one of BAD, NEUTRAL, GOOD at the
TypeScript level, but nothing checks it at runtime, so it is a String. -/
structure Ending where
  type : String
  title : String
  description : String
  condition : String
deriving DecidableEq

/-- A clue as it sits in the parsed provider payload: isLocked may be
absent or hold either Boolean; the spread in generateMystery overwrites
it unconditionally. -/
structure RawClue where
  id : String
  title : String
  description : String
  isLocked : Option Bool := none
deriving DecidableEq

/-- The value JSON.parse can yield for the mystery payload.  The cast
"as MysteryData" checks nothing, so scalar fields may be absent and the
three arrays may be absent (covering both a missing key and a non-array
value, which make .map throw alike). -/
structure RawMystery where
  title : Option String := none
  situation : Option String := none
  solution : Option String := none
  difficulty : Option String := none
  npcs : Option (List NPC) := none
  clues : Option (List RawClue) := none
  endings : Option (List Ending) := none
deriving DecidableEq

/-- The mystery value generateMystery actually returns: the parsed object
with clues re-mapped (isLocked forced true) and npc avatars assigned.
The endings array is never touched by generateMystery, so it may still
be absent in a successful result. -/
structure MysteryData where
  title : Option String := none
  situation : Option String := none
  solution : Option String := none
  difficulty : Option String := none
  npcs : List NPC
  clues : List Clue
  endings : Option (List Ending) := none
deriving DecidableEq

/-- JudgeResponse as it exists at runtime after "JSON.parse(text) as
JudgeResponse": answerType is an unchecked String, unlockedClueId may be
absent or null (both modelled as none) or any string. -/
structure JudgeResponseRaw where
  answerType : String
  reply : String
  unlockedClueId : Option String := none
deriving DecidableEq

/-- EndingEvaluation as it exists at runtime after the unchecked cast. -/
structure EndingEvaluationRaw where
  type : String
  narrative : String
  title : String
deriving DecidableEq

/-- MessageType from src/types.ts. -/
inductive MessageType
| user
| ai_response
| system
| clue_alert
deriving DecidableEq

/-- ChatMessage from src/types.ts (answerType kept as the raw string the
judgment carried). -/
structure ChatMessage where
  id : String
  type : MessageType
  content : String
  answerType : Option String := none
  speakerName : Option String := none
  avatarUrl : Option String := none
deriving DecidableEq

/-- JavaScript truthiness of an optional string: undefined, null and the
empty string are falsy. -/
def strTruthy : Option String → Bool
| none => false
| some s => !(s == "")

/-- The single model identifier the service defines for text generation
(src/services/geminiService.ts line 4). -/
def MODEL_NAME : String := "gemini-1.5-flash"

/-- Which error generateMystery rethrows, by source of the exception:
the generateContent call itself, the explicit "No text returned" throw,
JSON.parse, or .map called on a missing npcs or clues array. -/
inductive GenError
| apiThrew
| noText
| parseError
| cluesNotArray
| npcsNotArray
deriving DecidableEq

/-- Outcome of the one generateContent call made by generateMystery plus
the JSON.parse of its text: the call threw; the call returned but
response.text was empty or undefined; or there was nonempty text whose
JSON.parse result is given (none means JSON.parse threw). -/
inductive GenOutcome
| threw
| noText
| text (parsed : Option RawMystery)
deriving DecidableEq

/-- Avatar assignment for one NPC (geminiService.ts lines 139 to 143):
when visualSummary is truthy, avatarUrl becomes the result of the image
call (the img oracle; generateImage catches its own errors and returns
undefined on failure), otherwise the NPC is untouched. -/
def assignAvatar (img : String → Option String) (n : NPC) : NPC :=
  match n.visualSummary with
  | some s => if s == "" then n else { n with avatarUrl := img s }
  | none => n

/-- The clue re-mapping of geminiService.ts line 136: spread the raw
clue and overwrite isLocked with true, whatever it held before. -/
def lockClue (c : RawClue) : Clue :=
  { id := c.id, title := c.title, description := c.description, isLocked := true }

/-- generateMystery from src/services/geminiService.ts lines 51 to 151,
as a function of the call outcome and the image oracle.  The catch block
only logs and rethrows, so every exception surfaces as an error: a
thrown call, missing text, unparsable JSON, and a missing clues or npcs
array (whose .map throws) all fail the generation.  On success the
parsed object is returned with clues re-locked and avatars assigned;
nothing else is validated or defaulted. -/
def generateMystery (o : GenOutcome) (img : String → Option String) :
    Except GenError MysteryData :=
  match o with
  | .threw => .error .apiThrew
  | .noText => .error .noText
  | .text none => .error .parseError
  | .text (some raw) =>
    match raw.clues with
    | none => .error .cluesNotArray
    | some rcs =>
      match raw.npcs with
      | none => .error .npcsNotArray
      | some ns =>
        .ok { title := raw.title
              situation := raw.situation
              solution := raw.solution
              difficulty := raw.difficulty
              npcs := ns.map (assignAvatar img)
              clues := rcs.map lockClue
              endings := raw.endings }

/-- One logical generation request paired with the list of backend model
identifiers it attempts: the source issues exactly one generateContent
call, with model MODEL_NAME (geminiService.ts lines 120 to 128), and the
provider oracle maps a model name to that call outcome. -/
def generateMysteryRun (provider : String → GenOutcome)
    (img : String → Option String) : List String × Except GenError MysteryData :=
  ([ MODEL_NAME ], generateMystery (provider MODEL_NAME) img)

/-- Outcome of the generateContent call made by judgeInput plus the
JSON.parse of its text, as for GenOutcome. -/
inductive JudgeOutcome
| threw
| noText
| text (parsed : Option JudgeResponseRaw)
deriving DecidableEq

/-- The fixed fallback judgeInput returns from its catch block
(geminiService.ts lines 223 to 227). -/
def judgeFallback : JudgeResponseRaw :=
  { answerType := "CLARIFICATION", reply := "信号连接中断...", unlockedClueId := none }

/-- judgeInput from src/services/geminiService.ts lines 157 to 229.  The
mystery, user input, target id and history shape only the prompt and the
temperature; the returned value depends on the call outcome alone.  The
try block covers the call, the missing-text throw and JSON.parse, and
the catch returns the fixed fallback, so the function is total; a
successfully parsed payload is returned verbatim, unvalidated. -/
def judgeInput (mystery : MysteryData) (userInput : String) (targetId : String)
    (history : List String) (o : JudgeOutcome) : JudgeResponseRaw :=
  match o with
  | .threw => judgeFallback
  | .noText => judgeFallback
  | .text none => judgeFallback
  | .text (some r) => r

/-- Outcome of the generateContent call made by evaluateSolution plus
JSON.parse of its text.  The source has no separate empty-text check
(it writes JSON.parse of response.text directly), so an absent text
surfaces as a parse failure, covered by text none. -/
inductive EvalOutcome
| threw
| text (parsed : Option EndingEvaluationRaw)
deriving DecidableEq

/-- The exception evaluateSolution can let escape to its caller: the
prompt template is built before the try block and dereferences
mystery.endings.find three times (geminiService.ts lines 254 to 256),
which throws when the endings array is absent. -/
inductive EvalError
| endingsNotArray
deriving DecidableEq

/-- The fixed fallback ending evaluateSolution returns from its catch
block (geminiService.ts lines 281 to 285). -/
def evalFallback : EndingEvaluationRaw :=
  { type := "BAD", title := "混沌", narrative := "你的思绪太混乱了，无法得出结论。" }

/-- evaluateSolution from src/services/geminiService.ts lines 234 to
287.  The prompt is built before the try block (lines 248 to 266) and
calls mystery.endings.find with no guard on endings itself, so a
mystery whose endings array is absent — which generateMystery can
return, since it never touches endings — makes the function throw to
its caller.  Otherwise any exception in the try block (the call or
JSON.parse) yields the fixed BAD ending, and a successfully parsed
payload is returned verbatim. -/
def evaluateSolution (mystery : MysteryData) (playerTheory : String)
    (o : EvalOutcome) : Except EvalError EndingEvaluationRaw :=
  match mystery.endings with
  | none => .error .endingsNotArray
  | some _ =>
    match o with
    | .threw => .ok evalFallback
    | .text none => .ok evalFallback
    | .text (some e) => .ok e

/-- The session state owned by App (src/App.tsx lines 10 to 20). -/
structure AppState where
  phase : GamePhase
  mystery : Option MysteryData
  messages : List ChatMessage
  isProcessing : Bool
  activeTarget : String
  unlockedClues : Finset String
  showCluePanel : Bool

/-- Display name of the current target (App.tsx lines 62 to 65): the GM
sentinel gets a fixed label, otherwise the NPC name with a JavaScript
falsy-name fallback. -/
def targetNameOf (activeTarget : String) (targetNPC : Option NPC) : String :=
  if activeTarget == "GM" then "上帝视角 (GM)"
  else match targetNPC with
    | some n => if n.name == "" then "未知" else n.name
    | none => "未知"

/-- handlePlayerInput from src/App.tsx lines 58 to 112, given the
judgment the awaited judgeInput call produced (judgeInput is total, so
the catch branch is unreachable) and the Date.now() value used for
message ids.  Guard: no-op unless a mystery is loaded and the phase is
PLAYING.  Then: append the user message, set the processing flag, and if
the judgment carries a truthy clue id not yet in the unlocked set, add
it to the set and, only when it matches a clue of the mystery, append a
clue alert and open the clue panel; finally append the AI message and
clear the processing flag. -/
def handlePlayerInput (s : AppState) (text : String) (judgment : JudgeResponseRaw)
    (now : Nat) : AppState :=
  match s.mystery with
  | none => s
  | some m =>
    if s.phase ≠ GamePhase.PLAYING then s
    else
      let targetNPC := m.npcs.find? (fun n => n.id == s.activeTarget)
      let targetName := targetNameOf s.activeTarget targetNPC
      let userMsg : ChatMessage :=
        { id := toString now, type := .user, content := text
          speakerName := some ("To " ++ targetName) }
      let s1 : AppState :=
        { s with messages := s.messages ++ [userMsg], isProcessing := true }
      let s2 : AppState :=
        match judgment.unlockedClueId with
        | some cid =>
          if cid ≠ "" ∧ cid ∉ s1.unlockedClues then
            let su : AppState := { s1 with unlockedClues := insert cid s1.unlockedClues }
            match m.clues.find? (fun c => c.id == cid) with
            | some clue =>
              { su with
                messages := su.messages ++
                  [{ id := "clue-" ++ toString now, type := .clue_alert
                     content := "🔍 发现线索: " ++ clue.title }]
                showCluePanel := true }
            | none => su
          else s1
        | none => s1
      let aiMsg : ChatMessage :=
        { id := toString (now + 1), type := .ai_response, content := judgment.reply
          answerType := some judgment.answerType, speakerName := some targetName
          avatarUrl := targetNPC.bind NPC.avatarUrl }
      let s3 : AppState := { s2 with messages := s2.messages ++ [aiMsg] }
      { s3 with isProcessing := false }

/-- Truthiness of input.trim(): the trimmed string is nonempty exactly
when the input contains some non-whitespace character. -/
def trimTruthy (input : String) : Bool :=
  input.data.any fun c => !c.isWhitespace

/-- Whether the input area submits a free-text utterance
(src/components/InputArea.tsx lines 13 to 18): the submit handler
returns early unless the trimmed input is truthy and the phase is
PLAYING; the text field and button are likewise disabled exactly when
the phase is not PLAYING.  The component receives no processing flag. -/
def inputAreaAccepts (phase : GamePhase) (input : String) : Bool :=
  trimTruthy input && decide (phase = GamePhase.PLAYING)

/-- Whether a chat message is a clue alert. -/
def isClueAlert (msg : ChatMessage) : Bool :=
  match msg.type with
  | MessageType.clue_alert => true
  | _ => false

/-- Number of clue alert messages in a message log. -/
def clueAlertCount (ms : List ChatMessage) : Nat :=
  ms.countP isClueAlert

/-! Concrete fixtures used by the witnesses and counterexamples below. -/

/-- Image oracle that always fails (generateImage returns undefined). -/
def noImg : String → Option String := fun _ => none

/-- Sample NPC as the provider could return it. -/
def sampleNPC1 : NPC :=
  { id := "n1", name := "张伟", role := "证人", description := "d1", personality := "p1" }

/-- Sample NPC as the provider could return it. -/
def sampleNPC2 : NPC :=
  { id := "n2", name := "李娜", role := "嫌疑人", description := "d2", personality := "p2" }

/-- Sample NPC as the provider could return it. -/
def sampleNPC3 : NPC :=
  { id := "n3", name := "王强", role := "专家", description := "d3", personality := "p3" }

/-- Sample raw clue arriving with isLocked explicitly false. -/
def sampleRawClue1 : RawClue :=
  { id := "c1", title := "匕首", description := "现场发现一把匕首", isLocked := some false }

/-- Sample raw clue arriving without an isLocked field. -/
def sampleRawClue2 : RawClue :=
  { id := "c2", title := "脚印", description := "窗外有脚印" }

/-- A well-formed parsed payload. -/
def sampleRaw : RawMystery :=
  { title := some "雾夜命案", situation := some "一名男子死在反锁的房间里",
    solution := some "真相", difficulty := some "困难",
    npcs := some [sampleNPC1, sampleNPC2, sampleNPC3],
    clues := some [sampleRawClue1, sampleRawClue2], endings := some [] }

/-- The mystery generateMystery returns for sampleRaw under noImg. -/
def sampleGenerated : MysteryData :=
  { title := some "雾夜命案", situation := some "一名男子死在反锁的房间里",
    solution := some "真相", difficulty := some "困难",
    npcs := [sampleNPC1, sampleNPC2, sampleNPC3],
    clues := [lockClue sampleRawClue1, lockClue sampleRawClue2], endings := some [] }

/-- A parsed payload whose clues field is absent. -/
def rawMissingClues : RawMystery :=
  { title := some "雾夜命案", situation := some "s", solution := some "t",
    difficulty := some "难", npcs := some [sampleNPC1], clues := none, endings := none }

/-- A parsed payload whose endings field is absent but whose npcs and
clues arrays are present, so generation succeeds. -/
def rawNoEndings : RawMystery :=
  { title := some "无结局", situation := some "s", solution := some "t",
    difficulty := some "中", npcs := some [sampleNPC1],
    clues := some [sampleRawClue2], endings := none }

/-- The mystery generateMystery returns for rawNoEndings: endings still
absent. -/
def noEndingsMystery : MysteryData :=
  { title := some "无结局", situation := some "s", solution := some "t",
    difficulty := some "中", npcs := [sampleNPC1],
    clues := [lockClue sampleRawClue2], endings := none }

/-- A parsed payload with an empty NPC array. -/
def rawEmptyNpcs : RawMystery :=
  { title := some "空案", situation := some "s", solution := some "t",
    difficulty := some "易", npcs := some [], clues := some [], endings := some [] }

/-- The mystery generateMystery returns for rawEmptyNpcs. -/
def emptyNpcMystery : MysteryData :=
  { title := some "空案", situation := some "s", solution := some "t",
    difficulty := some "易", npcs := [], clues := [], endings := some [] }

/-- A provider oracle for a hypothetical chain A, B, C: models named A
and B fail, model C succeeds.  Only model C would succeed, yet the
service never asks for it. -/
def chainProvider : String → GenOutcome := fun name =>
  if name == "C" then GenOutcome.text (some sampleRaw) else GenOutcome.threw

/-- A parsed judgment the schema would forbid but the code accepts:
unknown answerType, unlockedClueId naming no clue. -/
def rogueJudgment : JudgeResponseRaw :=
  { answerType := "BANANA", reply := "???", unlockedClueId := some "zzz" }

/-- Session state whose unlocked set already holds clue c1. -/
def s7 : AppState :=
  { phase := GamePhase.PLAYING, mystery := some sampleGenerated, messages := [],
    isProcessing := false, activeTarget := "GM",
    unlockedClues := {"c1"}, showCluePanel := false }

/-- A judgment naming the already-unlocked clue c1. -/
def j7 : JudgeResponseRaw :=
  { answerType := "YES", reply := "是", unlockedClueId := some "c1" }

/-- Session state with a judgment call in flight: the phase is PLAYING
and the processing flag is set. -/
def busyState : AppState :=
  { phase := GamePhase.PLAYING, mystery := some sampleGenerated, messages := [],
    isProcessing := true, activeTarget := "GM", unlockedClues := ∅,
    showCluePanel := false }

/-- Session state after the game ended. -/
def endedState : AppState :=
  { phase := GamePhase.ENDED, mystery := some sampleGenerated, messages := [],
    isProcessing := false, activeTarget := "GM", unlockedClues := ∅,
    showCluePanel := false }

/-- Session state with an empty unlocked set, used for the unknown-id
unlock witness. -/
def freshState : AppState :=
  { phase := GamePhase.PLAYING, mystery := some sampleGenerated, messages := [],
    isProcessing := false, activeTarget := "GM", unlockedClues := ∅,
    showCluePanel := false }

/-- Claim C1: every mystery generateMystery returns has all clues
locked, whatever the provider supplied for isLocked (any Boolean or the
field absent). -/
theorem generateMystery_clues_all_locked (o : GenOutcome)
    (img : String → Option String) (m : MysteryData)
    (h : generateMystery o img = Except.ok m) :
    ∀ c ∈ m.clues, c.isLocked = true := by
  rcases o with _ | _ | p
  · simp [generateMystery] at h
  · simp [generateMystery] at h
  · rcases p with _ | raw
    · simp [generateMystery] at h
    · rcases hc : raw.clues with _ | rcs
      · simp [generateMystery, hc] at h
      · rcases hn : raw.npcs with _ | ns
        · simp [generateMystery, hc, hn] at h
        · simp only [generateMystery, hc, hn, Except.ok.injEq] at h
          subst h
          intro c hmem
          simp only [List.mem_map] at hmem
          obtain ⟨a, -, rfl⟩ := hmem
          rfl

/-- Claim C1 witness: the sample payload generates successfully and its
first clue, delivered with isLocked false, is locked in the result. -/
theorem generateMystery_clues_all_locked_witness :
    generateMystery (GenOutcome.text (some sampleRaw)) noImg = Except.ok sampleGenerated ∧
    (lockClue sampleRawClue1).isLocked = true :=
  ⟨rfl, generateMystery_clues_all_locked (GenOutcome.text (some sampleRaw)) noImg
    sampleGenerated rfl (lockClue sampleRawClue1) (by decide)⟩

/-- Claim C2: whenever the provider call underlying judgeInput fails —
the call threw, the response carried no text, or the text failed to
parse — judgeInput returns exactly the fixed fallback with answerType
CLARIFICATION, the fixed signal-interference reply, and a null
unlockedClueId; being a total function, it raises nothing. -/
theorem judgeInput_failure_returns_fallback (mystery : MysteryData)
    (userInput targetId : String) (history : List String) (o : JudgeOutcome)
    (h : o = JudgeOutcome.threw ∨ o = JudgeOutcome.noText ∨ o = JudgeOutcome.text none) :
    judgeInput mystery userInput targetId history o = judgeFallback := by
  rcases h with rfl | rfl | rfl <;> rfl

/-- Claim C2 witness: a thrown judge call on the sample mystery yields
the fallback. -/
theorem judgeInput_failure_returns_fallback_witness :
    judgeInput sampleGenerated "他是被谋杀的吗" "GM" [] JudgeOutcome.threw = judgeFallback :=
  judgeInput_failure_returns_fallback sampleGenerated "他是被谋杀的吗" "GM" []
    JudgeOutcome.threw (Or.inl rfl)

/-- Claim C3 counterexample: a mystery whose endings array is absent is
reachable (generateMystery succeeds on rawNoEndings and never touches
endings), and on it evaluateSolution throws to its caller — the prompt
dereferences mystery.endings.find before the try — instead of returning
the fixed BAD ending, even though the provider call failed. -/
theorem evaluateSolution_raises_counterexample :
    generateMystery (GenOutcome.text (some rawNoEndings)) noImg =
      Except.ok noEndingsMystery ∧
    noEndingsMystery.endings = none ∧
    evaluateSolution noEndingsMystery "他自杀了" EvalOutcome.threw =
      Except.error EvalError.endingsNotArray ∧
    evaluateSolution noEndingsMystery "他自杀了" EvalOutcome.threw ≠
      Except.ok evalFallback :=
  ⟨rfl, rfl, rfl, by simp [evaluateSolution, noEndingsMystery]⟩

/-- Claim C3 amended: for every mystery whose endings array is present,
whenever the provider call underlying evaluateSolution fails (the call
threw, or its text was absent or unparsable), evaluateSolution does not
raise and returns exactly the fixed BAD ending; when the endings array
is absent, the prompt construction throws before the try block and the
error escapes to the caller. -/
theorem evaluateSolution_failure_returns_fixed_bad (mystery : MysteryData)
    (playerTheory : String) (o : EvalOutcome) (es : List Ending)
    (hend : mystery.endings = some es)
    (h : o = EvalOutcome.threw ∨ o = EvalOutcome.text none) :
    evaluateSolution mystery playerTheory o = Except.ok evalFallback ∧
    evalFallback.type = "BAD" := by
  rcases h with rfl | rfl <;> exact ⟨by simp [evaluateSolution, hend], rfl⟩

/-- Claim C3 amended witness: a thrown evaluation call on the sample
mystery, whose endings array is present, yields the fixed BAD ending. -/
theorem evaluateSolution_failure_returns_fixed_bad_witness :
    evaluateSolution sampleGenerated "他自杀了" EvalOutcome.threw =
      Except.ok evalFallback ∧
    evalFallback.type = "BAD" :=
  evaluateSolution_failure_returns_fixed_bad sampleGenerated "他自杀了"
    EvalOutcome.threw [] rfl (Or.inl rfl)

/-- Claim C4 counterexample: with models A and B failing transiently and
model C succeeding, the generation request attempts only the fixed model
gemini-1.5-flash — not the chain A, B, C — and fails instead of
returning the result of C. -/
theorem generateMystery_no_fallback_counterexample :
    (generateMysteryRun chainProvider noImg).1 = [ MODEL_NAME ] ∧
    (generateMysteryRun chainProvider noImg).1 ≠ ["A", "B", "C"] ∧
    (generateMysteryRun chainProvider noImg).2 = Except.error GenError.apiThrew :=
  ⟨rfl, by decide, rfl⟩

/-- Claim C4 amended: the service has no fallback chain — one logical
generation request attempts exactly the single fixed model MODEL_NAME,
and if that one call throws the failure propagates; no further model is
attempted. -/
theorem generateMystery_attempts_single_model (provider : String → GenOutcome)
    (img : String → Option String) :
    (generateMysteryRun provider img).1 = [ MODEL_NAME ] ∧
    (provider MODEL_NAME = GenOutcome.threw →
      (generateMysteryRun provider img).2 = Except.error GenError.apiThrew) :=
  ⟨rfl, fun h => by simp [generateMysteryRun, generateMystery, h]⟩

/-- Claim C4 amended witness: with a provider whose every model throws,
the single attempted call fails and the error propagates. -/
theorem generateMystery_attempts_single_model_witness :
    (generateMysteryRun (fun _ => GenOutcome.threw) noImg).2 =
      Except.error GenError.apiThrew :=
  (generateMystery_attempts_single_model (fun _ => GenOutcome.threw) noImg).2 rfl

/-- Claim C5 counterexample: a parsed payload whose clues array is
absent makes generateMystery fail (the .map call throws and the catch
rethrows) instead of defaulting the array to an empty list. -/
theorem generateMystery_malformed_payload_raises :
    generateMystery (GenOutcome.text (some rawMissingClues)) noImg =
      Except.error GenError.cluesNotArray := rfl

/-- Claim C5 amended: generateMystery performs no defaulting — it fails
when the clues array is absent or malformed, when the response text is
missing, and when the text does not parse; missing scalar fields are
passed through, and the only normalization is forcing isLocked true. -/
theorem generateMystery_no_defaulting (raw : RawMystery)
    (img : String → Option String) (h : raw.clues = none) :
    generateMystery (GenOutcome.text (some raw)) img = Except.error GenError.cluesNotArray ∧
    generateMystery GenOutcome.noText img = Except.error GenError.noText ∧
    generateMystery (GenOutcome.text none) img = Except.error GenError.parseError := by
  refine ⟨?_, rfl, rfl⟩
  simp [generateMystery, h]

/-- Claim C5 amended witness: the clueless sample payload fails with the
clues error, and the no-text and unparsable cases fail too. -/
theorem generateMystery_no_defaulting_witness :
    generateMystery (GenOutcome.text (some rawMissingClues)) noImg =
      Except.error GenError.cluesNotArray ∧
    generateMystery GenOutcome.noText noImg = Except.error GenError.noText ∧
    generateMystery (GenOutcome.text none) noImg = Except.error GenError.parseError :=
  generateMystery_no_defaulting rawMissingClues noImg rfl

/-- Claim C6 counterexample: generateMystery can succeed with zero NPCs,
so it cannot guarantee one deceased and two alive NPCs; moreover the NPC
record itself carries no status field. -/
theorem generateMystery_npc_status_counterexample :
    generateMystery (GenOutcome.text (some rawEmptyNpcs)) noImg =
      Except.ok emptyNpcMystery ∧
    emptyNpcMystery.npcs.length = 0 :=
  ⟨rfl, rfl⟩

/-- Claim C6 amended: the generator passes the provider NPC list through
unchanged apart from avatar assignment (and likewise the scalar fields
and endings); no status invariant exists or is enforced. -/
theorem generateMystery_npcs_passthrough (raw : RawMystery)
    (img : String → Option String) (ns : List NPC) (rcs : List RawClue)
    (hn : raw.npcs = some ns) (hc : raw.clues = some rcs) :
    generateMystery (GenOutcome.text (some raw)) img =
      Except.ok { title := raw.title, situation := raw.situation,
                  solution := raw.solution, difficulty := raw.difficulty,
                  npcs := ns.map (assignAvatar img),
                  clues := rcs.map lockClue, endings := raw.endings } := by
  simp [generateMystery, hn, hc]

/-- Claim C6 amended witness: the sample payload generates exactly its
own NPC list with avatars assigned. -/
theorem generateMystery_npcs_passthrough_witness :
    generateMystery (GenOutcome.text (some sampleRaw)) noImg =
      Except.ok { title := sampleRaw.title, situation := sampleRaw.situation,
                  solution := sampleRaw.solution, difficulty := sampleRaw.difficulty,
                  npcs := [sampleNPC1, sampleNPC2, sampleNPC3].map (assignAvatar noImg),
                  clues := [sampleRawClue1, sampleRawClue2].map lockClue,
                  endings := sampleRaw.endings } :=
  generateMystery_npcs_passthrough sampleRaw noImg
    [sampleNPC1, sampleNPC2, sampleNPC3] [sampleRawClue1, sampleRawClue2] rfl rfl

/-- Claim C7: processing a judgment that names a clue id already in the
unlocked set leaves the set unchanged (in particular its size) and
appends no further clue alert message. -/
theorem handlePlayerInput_unlock_idempotent (s : AppState) (text : String)
    (j : JudgeResponseRaw) (now : Nat) (cid : String)
    (hj : j.unlockedClueId = some cid) (hmem : cid ∈ s.unlockedClues) :
    (handlePlayerInput s text j now).unlockedClues = s.unlockedClues ∧
    clueAlertCount (handlePlayerInput s text j now).messages =
      clueAlertCount s.messages := by
  obtain ⟨ph, mys, msgs, proc, tgt, uc, panel⟩ := s
  cases mys with
  | none => exact ⟨rfl, rfl⟩
  | some m =>
    by_cases hp : ph = GamePhase.PLAYING
    · subst hp
      simp only at hmem
      simp [handlePlayerInput, hj, hmem, clueAlertCount, isClueAlert,
        List.countP_append, List.countP_cons, List.countP_nil]
    · simp [handlePlayerInput, hp]

/-- Claim C7 witness: re-unlocking clue c1 in a state already holding it
changes nothing. -/
theorem handlePlayerInput_unlock_idempotent_witness :
    (handlePlayerInput s7 "死者是被人杀害的吗" j7 5).unlockedClues = s7.unlockedClues ∧
    clueAlertCount (handlePlayerInput s7 "死者是被人杀害的吗" j7 5).messages =
      clueAlertCount s7.messages :=
  handlePlayerInput_unlock_idempotent s7 "死者是被人杀害的吗" j7 5 "c1" rfl (by decide)

/-- Claim C8 counterexample: judgeInput returns a successfully parsed
payload verbatim, so an answerType outside the closed set is not mapped
to CLARIFICATION and an unlockedClueId naming no clue of the mystery is
not dropped. -/
theorem judgeInput_no_validation_counterexample :
    judgeInput sampleGenerated "门是锁着的吗" "GM" []
      (JudgeOutcome.text (some rogueJudgment)) = rogueJudgment ∧
    rogueJudgment.answerType ∉
      ["YES", "NO", "IRRELEVANT", "HINT", "CLARIFICATION", "NPC_DIALOGUE"] ∧
    rogueJudgment.answerType ≠ "CLARIFICATION" ∧
    (sampleGenerated.clues.any fun c => c.id == "zzz") = false ∧
    rogueJudgment.unlockedClueId ≠ none :=
  ⟨rfl, by decide, by decide, by decide, by decide⟩

/-- Claim C8 amended: judgeInput returns every successfully parsed
provider payload verbatim, with no validation of answerType or of
unlockedClueId against the mystery (the closed answer set exists only in
the request schema; clue-id filtering happens downstream in the session
alert logic). -/
theorem judgeInput_returns_parsed_verbatim (mystery : MysteryData)
    (userInput targetId : String) (history : List String) (r : JudgeResponseRaw) :
    judgeInput mystery userInput targetId history (JudgeOutcome.text (some r)) = r := rfl

/-- Claim C9 counterexample: with a judgment call in flight the phase is
still PLAYING and the processing flag gates nothing, so the input area
accepts a new submission and the handler processes it (appending the
user and AI messages) rather than refusing or ignoring it. -/
theorem processing_flag_gate_counterexample :
    busyState.isProcessing = true ∧
    inputAreaAccepts busyState.phase "凶手是谁" = true ∧
    (handlePlayerInput busyState "凶手是谁" judgeFallback 0).messages.length =
      busyState.messages.length + 2 :=
  ⟨rfl, by decide, rfl⟩

/-- Claim C9 amended: submissions are refused exactly by phase — outside
PLAYING the input area rejects the submission and the handler is a no-op
(this covers in-flight generation, phase LOADING, and in-flight
evaluation, phase ENDED); the processing flag itself gates nothing, so a
second judgment can be started while one is in flight. -/
theorem submissions_refused_outside_playing (s : AppState) (input : String)
    (j : JudgeResponseRaw) (now : Nat) (hp : s.phase ≠ GamePhase.PLAYING) :
    inputAreaAccepts s.phase input = false ∧ handlePlayerInput s input j now = s := by
  constructor
  · simp [inputAreaAccepts, hp]
  · obtain ⟨ph, mys, msgs, proc, tgt, uc, panel⟩ := s
    simp only at hp
    cases mys with
    | none => rfl
    | some m => simp [handlePlayerInput, hp]

/-- Claim C9 amended witness: in the ENDED phase a submission is refused
by the input area and ignored by the handler. -/
theorem submissions_refused_outside_playing_witness :
    inputAreaAccepts endedState.phase "还有新线索吗" = false ∧
    handlePlayerInput endedState "还有新线索吗" judgeFallback 9 = endedState :=
  submissions_refused_outside_playing endedState "还有新线索吗" judgeFallback 9
    (by decide)

/-- Claim C10: a truthy, not-yet-unlocked clue id from a judgment is
always added to the unlocked set, and a clue alert is appended exactly
when the id matches a clue of the mystery — an unknown id grows the set
without emitting an alert. -/
theorem handlePlayerInput_unknown_clue_id (s : AppState) (m : MysteryData)
    (text : String) (j : JudgeResponseRaw) (now : Nat) (cid : String)
    (hm : s.mystery = some m) (hp : s.phase = GamePhase.PLAYING)
    (hj : j.unlockedClueId = some cid) (hne : cid ≠ "")
    (hnew : cid ∉ s.unlockedClues) :
    (handlePlayerInput s text j now).unlockedClues = insert cid s.unlockedClues ∧
    clueAlertCount (handlePlayerInput s text j now).messages =
      clueAlertCount s.messages +
        (if m.clues.any (fun c => c.id == cid) then 1 else 0) := by
  obtain ⟨ph, mys, msgs, proc, tgt, uc, panel⟩ := s
  simp only at hm hp hnew ⊢
  subst hm
  subst hp
  cases hfind : m.clues.find? (fun c => c.id == cid) with
  | none =>
    have hany : (m.clues.any fun c => c.id == cid) = false := by
      rw [List.any_eq_false]
      intro c hc
      simpa using List.find?_eq_none.mp hfind c hc
    simp [handlePlayerInput, hj, hne, hnew, hfind, hany, clueAlertCount,
      isClueAlert, List.countP_append, List.countP_cons, List.countP_nil]
  | some clue =>
    have hany : (m.clues.any fun c => c.id == cid) = true := by
      rw [List.any_eq_true]
      exact ⟨clue, List.mem_of_find?_eq_some hfind, by simpa using List.find?_some hfind⟩
    simp [handlePlayerInput, hj, hne, hnew, hfind, hany, clueAlertCount,
      isClueAlert, List.countP_append, List.countP_cons, List.countP_nil]

/-- Claim C10 witness: a judgment naming the unknown id zzz grows the
unlocked set by that id and appends no clue alert. -/
theorem handlePlayerInput_unknown_clue_id_witness :
    (handlePlayerInput freshState "窗户开着吗" rogueJudgment 3).unlockedClues =
      insert "zzz" freshState.unlockedClues ∧
    clueAlertCount (handlePlayerInput freshState "窗户开着吗" rogueJudgment 3).messages =
      clueAlertCount freshState.messages +
        (if sampleGenerated.clues.any (fun c => c.id == "zzz") then 1 else 0) :=
  handlePlayerInput_unknown_clue_id freshState sampleGenerated "窗户开着吗"
    rogueJudgment 3 "zzz" rfl rfl rfl (by decide) (by decide)

end Think
